import Mathlib

/-!
Verification of the parameter/unit normalization and contamination-classification
subsystem of the bunnrensk laboratory-data repository.

The development shallowly embeds the library routines of
`02_scripts/lib/chemistry.py`, `02_scripts/lib/thresholds.py`,
`02_scripts/lib/conversions.py` and `02_scripts/lib/parsers/als_pdf.py`:
lookup tables become association lists, Python strings become Lean `String`,
numeric values (Python floats, whose literals in the tables are all short
decimals) become exact rationals `ℚ`, and fallible parsing returns `Option`.

Modelling notes on the Python primitives:
* `str.strip()` / `str.lower()` are modelled for the character repertoire that
  occurs in the data (ASCII plus the Norwegian letters Ø/Å/Æ and their
  lowercase forms, and the micro sign); exotic Unicode whitespace or cased
  characters outside this repertoire are left untouched.
* the regular expressions of the source are small and anchored and are
  modelled by equivalent explicit character-list functions (documented at each
  definition); `.` never needs to skip a newline for the label/value universe
  of the data, which contains none.
* `float(...)` is modelled for finite decimal numerals (sign, digits with
  optional underscores between them, optional fraction and exponent); the
  `inf`/`nan` forms have no rational counterpart and are outside the model.
-/

namespace Bunnrensk

/-- The whitespace characters recognised by Python `str.strip` and `\s`
(ASCII range: space, tab, newline, vertical tab, form feed, carriage return). -/
def isPyWS (c : Char) : Bool :=
  c = ' ' || c = '\t' || c = '\n' || c = Char.ofNat 11 || c = Char.ofNat 12 || c = '\r'

/-- Python `str.lower` on one character, for the repertoire occurring in the
tables: ASCII letters and the Norwegian capitals Ø, Å, Æ. -/
def lowerChar (c : Char) : Char :=
  if c = 'Ø' then 'ø'
  else if c = 'Å' then 'å'
  else if c = 'Æ' then 'æ'
  else if 'A' ≤ c && c ≤ 'Z' then Char.ofNat (c.toNat + 32)
  else c

/-- Python `str.lower`. -/
def lowerStr (s : String) : String := ⟨s.data.map lowerChar⟩

/-- Strip leading and trailing whitespace from a character list
(Python `str.strip()`). -/
def stripL (l : List Char) : List Char :=
  ((l.dropWhile isPyWS).reverse.dropWhile isPyWS).reverse

/-- Python `str.strip()`. -/
def pyStrip (s : String) : String := ⟨stripL s.data⟩

/-- Lookup in a Python dict literal, modelled as an association list (the
source dicts have pairwise distinct keys, so first-match lookup is faithful). -/
def dictGet (m : List (String × α)) (k : String) : Option α :=
  (m.find? (fun e => e.1 == k)).map (fun e => e.2)


/-- One row of the `TILSTANDSKLASSER` table of `thresholds.py`: display name and
the upper bounds of the five tilstandsklasser; `TK1` (the normverdi) is present
in every literal row, `TK2`–`TK5` are `None` for normverdi-only parameters. -/
structure TkEntry where
  name : String
  TK1 : ℚ
  TK2 : Option ℚ
  TK3 : Option ℚ
  TK4 : Option ℚ
  TK5 : Option ℚ
deriving DecidableEq

/-- One row of the `TILSTANDSKLASSER` table of `chemistry.py`: upper bounds of
the five classes keyed I–V (every literal row defines all five). -/
structure ChemClassEntry where
  I : ℚ
  II : ℚ
  III : ℚ
  IV : ℚ
  V : ℚ
deriving DecidableEq

def EUROFINS_ALI_COLUMN_MAP : List (String × String) := [
  ("Tørrstoff", "DryMatter"),
  ("Tørrstoff (ite)", "DryMatter"),
  ("ite Tørrstoff", "DryMatter"),
  ("pH", "pH"),
  ("Arsen (As)", "As"),
  ("Bly (Pb)", "Pb"),
  ("Kadmium (Cd)", "Cd"),
  ("Kobber (Cu)", "Cu"),
  ("Krom (Cr)", "Cr"),
  ("Krom total (Cr)", "Cr"),
  ("Kvikksølv (Hg)", "Hg"),
  ("Nikkel (Ni)", "Ni"),
  ("Sink (Zn)", "Zn"),
  ("Krom (VI)", "Cr_VI"),
  ("Krom VI", "Cr_VI"),
  ("Jern (Fe)", "Fe"),
  ("Mangan (Mn)", "Mn"),
  ("Barium (Ba)", "Ba"),
  ("Vanadium (V)", "V"),
  ("Kobolt (Co)", "Co"),
  ("Molybden (Mo)", "Mo"),
  ("Antimon (Sb)", "Sb"),
  ("Selen (Se)", "Se"),
  ("Tinn (Sn)", "Sn"),
  ("Tallium (Tl)", "Tl"),
  ("Aluminium (Al)", "Al"),
  ("Beryllium (Be)", "Be"),
  ("Litium (Li)", "Li"),
  ("Sølv (Ag)", "Ag"),
  ("Wolfram (W)", "W"),
  ("Benzen", "Benzene"),
  ("Toluen", "Toluene"),
  ("Etylbenzen", "Ethylbenzene"),
  ("m/p/o-Xylen", "Xylene"),
  ("m,p-Xylen", "Xylene_mp"),
  ("o-Xylen", "Xylene_o"),
  ("Xylener", "Xylene"),
  ("Sum BTEX", "BTEX"),
  ("Alifater C5-C6", "Alifater_C5-C6"),
  ("Alifater >C6-C8", "Alifater_C6-C8"),
  ("Alifater >C8-C10", "Alifater_C8-C10"),
  ("Alifater >C10-C12", "Alifater_C10-C12"),
  ("Alifater >C12-C16", "Alifater_C12-C16"),
  ("Alifater >C16-C35", "Alifater_C16-C35"),
  ("Alifater C5-C35", "Alifater_C5-C35"),
  ("Alifater >C12-C35", "Alifater_C12-C35"),
  ("Alifater >C35-C40", "Alifater_C35-C40"),
  ("Alifater C10-C40", "Alifater_C10-C40"),
  ("Olje >C10-C12", "Alifater_C10-C12"),
  ("Olje >C12-C16", "Alifater_C12-C16"),
  ("Olje >C16-C35", "Alifater_C16-C35"),
  ("Olje sum >C12-C35", "Alifater_C12-C35"),
  ("Olje (sum >C10-C40)", "Alifater_C10-C40"),
  ("Sum THC (>C10-C40)", "Alifater_C10-C40"),
  ("Aromater >C8-C10", "Aromatics_C8-C10"),
  ("Aromater >C10-C16", "Aromatics_C10-C16"),
  ("Aromater >C16-C35", "Aromatics_C16-C35"),
  ("Naftalen", "Naphthalene"),
  ("Acenaftylen", "Acenaphthylene"),
  ("Acenaften", "Acenaphthene"),
  ("Fluoren", "Fluorene"),
  ("Fenantren", "Phenanthrene"),
  ("Antracen", "Anthracene"),
  ("Fluoranten", "Fluoranthene"),
  ("Pyren", "Pyrene"),
  ("Benzo[a]antracen", "BaA"),
  ("Benzo(a)antracen", "BaA"),
  ("Krysen", "Chrysene"),
  ("Krysen/Trifenylen", "Chrysene"),
  ("Benzo[b]fluoranten", "BbF"),
  ("Benzo(b)fluoranten", "BbF"),
  ("Benzo[k]fluoranten", "BkF"),
  ("Benzo(k)fluoranten", "BkF"),
  ("Benzo(b,k)fluoranten", "BbkF"),
  ("Benzo[a]pyren", "BaP"),
  ("Benzo(a)pyren", "BaP"),
  ("Indeno[1,2,3-cd]pyren", "IcdP"),
  ("Indeno(1,2,3-cd)pyren", "IcdP"),
  ("Dibenzo[a,h]antracen", "DahA"),
  ("Dibenzo(a,h)antracen", "DahA"),
  ("Benzo[ghi]perylen", "BghiP"),
  ("Benzo(ghi)perylen", "BghiP"),
  ("Sum PAH(16) EPA", "PAH16"),
  ("Sum PAH-16", "PAH16"),
  ("Sum PAH 16", "PAH16"),
  ("PAH 16 EPA", "PAH16"),
  ("PCB 28", "PCB28"),
  ("PCB 52", "PCB52"),
  ("PCB 101", "PCB101"),
  ("PCB 118", "PCB118"),
  ("PCB 138", "PCB138"),
  ("PCB 153", "PCB153"),
  ("PCB 180", "PCB180"),
  ("Sum 7 PCB", "PCB7"),
  ("Sum PCB-7", "PCB7"),
  ("Sum PCB 7", "PCB7"),
  ("Cyanid", "CN"),
  ("Cyanid total", "CN"),
  ("Cyanid fri", "CN_free"),
  ("TOC", "TOC"),
  ("Glødetap", "LOI")]

def ALS_EXCEL_COLUMN_MAP : List (String × String) := [
  ("As (Arsen)", "As"),
  ("Cd (Kadmium)", "Cd"),
  ("Cr (Krom)", "Cr"),
  ("Cu (Kopper)", "Cu"),
  ("Hg (Kvikksølv)", "Hg"),
  ("Ni (Nikkel)", "Ni"),
  ("Pb (Bly)", "Pb"),
  ("Zn (Sink)", "Zn"),
  ("Ba (Barium)", "Ba"),
  ("Mo (Molybden)", "Mo"),
  ("Sb (Antimon)", "Sb"),
  ("Se (Selen)", "Se"),
  ("V (Vanadium)", "V"),
  ("Co (Kobolt)", "Co"),
  ("Fe (Jern)", "Fe"),
  ("Mn (Mangan)", "Mn"),
  ("Sum PCB-7", "PCB7"),
  ("PCB 28", "PCB28"),
  ("PCB 52", "PCB52"),
  ("PCB 101", "PCB101"),
  ("PCB 118", "PCB118"),
  ("PCB 138", "PCB138"),
  ("PCB 153", "PCB153"),
  ("PCB 180", "PCB180"),
  ("Benso(a)pyren^", "BaP"),
  ("Benso(a)pyren", "BaP"),
  ("Sum PAH-16", "PAH16"),
  ("Sum of 16 PAH (M1)", "PAH16"),
  ("Naftalen", "Naphthalene"),
  ("Acenaftylen", "Acenaphthylene"),
  ("Acenaften", "Acenaphthene"),
  ("Fluoren", "Fluorene"),
  ("Fenantren", "Phenanthrene"),
  ("Antracen", "Anthracene"),
  ("Fluoranten", "Fluoranthene"),
  ("Pyren", "Pyrene"),
  ("Benso(a)antracen^", "BaA"),
  ("Krysen^", "Chrysene"),
  ("Benso(b+j)fluoranten^", "BbjF"),
  ("Sum av benso(b+j)fluoranten", "BbjF_sum"),
  ("Benso(k)fluoranten^", "BkF"),
  ("Indeno(123cd)pyren^", "IcdP"),
  ("Dibenso(ah)antracen^", "DahA"),
  ("Benso(ghi)perylen", "BghiP"),
  ("Benzen", "Benzene"),
  ("Toluen", "Toluene"),
  ("Etylbensen", "Ethylbenzene"),
  ("Xylener", "Xylenes"),
  ("m/p-Xylener", "Xylenes_mp"),
  ("o-Xylen", "Xylene_o"),
  ("Sum xylener (M1)", "Xylenes_sum"),
  ("Sum BTEX (M1)", "BTEX_sum"),
  ("Alifater >C5-C6", "Alifater_C5-C6"),
  ("Alifater >C6-C8", "Alifater_C6-C8"),
  ("Alifater >C8-C10", "Alifater_C8-C10"),
  ("Alifater >C10-C12", "Alifater_C10-C12"),
  ("Alifater C10-C12", "Alifater_C10-C12"),
  ("Alifater >C12-C16", "Alifater_C12-C16"),
  ("Alifater >C16-C35", "Alifater_C16-C35"),
  ("Sum alifater >C5-C35 (M1)", "Alifater_C5-C35_sum"),
  ("Sum alifater >C12-C35 (M1)", "Alifater_C12-C35_sum"),
  ("Fraksjon >C5-C6", "Fraksjon_C5-C6"),
  ("Fraksjon >C6-C8", "Fraksjon_C6-C8"),
  ("Fraksjon >C8-C10", "Fraksjon_C8-C10"),
  ("Fraksjon >C10-C12", "Fraksjon_C10-C12"),
  ("Fraksjon >C12-C16", "Fraksjon_C12-C16"),
  ("Fraksjon >C16-C35", "Fraksjon_C16-C35"),
  ("Fraksjon >C35-C40", "Fraksjon_C35-C40"),
  ("Fraksjon >C12-C35 (sum)", "Fraksjon_C12-C35_sum"),
  ("Fraksjon >C12-C35 (sum, M1)", "Fraksjon_C12-C35_sum"),
  ("Sum >C10-C40", "Sum_C10-C40"),
  ("Olje, Fraksjon >C10-C40", "Olje_C10-C40"),
  ("Cl", "Cl"),
  ("F", "F"),
  ("Fenolindeks", "Phenol"),
  ("DOC", "DOC"),
  ("Sulfat", "SO4"),
  ("Ledningsevne (konduktivitet)", "Conductivity"),
  ("Elektrisk konduktivitet", "Conductivity"),
  ("pH", "pH"),
  ("Tørrstoff ved 105 grader", "DryMatter"),
  ("Vanninnhold", "WaterContent"),
  ("TOC", "TOC")]

def PARAMETER_ALIASES : List (String × String) := [
  ("arsen", "As"),
  ("arsenic", "As"),
  ("as", "As"),
  ("bly", "Pb"),
  ("lead", "Pb"),
  ("pb", "Pb"),
  ("kadmium", "Cd"),
  ("cadmium", "Cd"),
  ("cd", "Cd"),
  ("kobber", "Cu"),
  ("copper", "Cu"),
  ("cu", "Cu"),
  ("krom", "Cr"),
  ("chromium", "Cr"),
  ("cr", "Cr"),
  ("krom total", "Cr"),
  ("krom (vi)", "Cr_VI"),
  ("krom vi", "Cr_VI"),
  ("cr(vi)", "Cr_VI"),
  ("kvikksølv", "Hg"),
  ("mercury", "Hg"),
  ("hg", "Hg"),
  ("nikkel", "Ni"),
  ("nickel", "Ni"),
  ("ni", "Ni"),
  ("sink", "Zn"),
  ("zinc", "Zn"),
  ("zn", "Zn"),
  ("jern", "Fe"),
  ("iron", "Fe"),
  ("fe", "Fe"),
  ("mangan", "Mn"),
  ("manganese", "Mn"),
  ("mn", "Mn"),
  ("barium", "Ba"),
  ("ba", "Ba"),
  ("vanadium", "V"),
  ("v", "V"),
  ("kobolt", "Co"),
  ("cobalt", "Co"),
  ("co", "Co"),
  ("molybden", "Mo"),
  ("molybdenum", "Mo"),
  ("mo", "Mo"),
  ("antimon", "Sb"),
  ("antimony", "Sb"),
  ("sb", "Sb"),
  ("selen", "Se"),
  ("selenium", "Se"),
  ("se", "Se"),
  ("tinn", "Sn"),
  ("tin", "Sn"),
  ("sn", "Sn"),
  ("tallium", "Tl"),
  ("thallium", "Tl"),
  ("tl", "Tl"),
  ("aluminium", "Al"),
  ("al", "Al"),
  ("beryllium", "Be"),
  ("be", "Be"),
  ("litium", "Li"),
  ("lithium", "Li"),
  ("li", "Li"),
  ("sølv", "Ag"),
  ("silver", "Ag"),
  ("ag", "Ag"),
  ("wolfram", "W"),
  ("tungsten", "W"),
  ("w", "W"),
  ("thc", "THC"),
  ("total hydrocarbons", "THC"),
  ("totale hydrokarboner", "THC"),
  ("tph", "TPH"),
  ("total petroleum hydrocarbons", "TPH"),
  ("olje", "THC"),
  ("oil", "THC"),
  ("mineralsk olje", "THC"),
  ("sum >c12-c35", "THC_C12-C35"),
  ("olje sum >c12-c35", "THC_C12-C35"),
  (">c10-c12", "THC_C10-C12"),
  ("fraksjon >c10-c12", "THC_C10-C12"),
  (">c12-c16", "THC_C12-C16"),
  ("fraksjon >c12-c16", "THC_C12-C16"),
  (">c16-c35", "THC_C16-C35"),
  ("fraksjon >c16-c35", "THC_C16-C35"),
  (">c12-c35", "THC_C12-C35"),
  ("fraksjon >c12-c35", "THC_C12-C35"),
  (">c35-c40", "THC_C35-C40"),
  ("fraksjon >c35-c40", "THC_C35-C40"),
  ("c10-c40", "THC_C10-C40"),
  ("thc c10-c40", "THC_C10-C40"),
  ("pah", "PAH"),
  ("polycyclic aromatic hydrocarbons", "PAH"),
  ("pah16", "PAH16"),
  ("pah 16", "PAH16"),
  ("sum pah16", "PAH16"),
  ("pah-16", "PAH16"),
  ("pah 16 epa", "PAH16"),
  ("sum pah 16 epa", "PAH16"),
  ("naftalen", "Naphthalene"),
  ("naphthalene", "Naphthalene"),
  ("acenaftylen", "Acenaphthylene"),
  ("acenaphthylene", "Acenaphthylene"),
  ("acenaften", "Acenaphthene"),
  ("acenaphthene", "Acenaphthene"),
  ("fluoren", "Fluorene"),
  ("fluorene", "Fluorene"),
  ("fenantren", "Phenanthrene"),
  ("phenanthrene", "Phenanthrene"),
  ("antracen", "Anthracene"),
  ("anthracene", "Anthracene"),
  ("fluoranten", "Fluoranthene"),
  ("fluoranthene", "Fluoranthene"),
  ("pyren", "Pyrene"),
  ("pyrene", "Pyrene"),
  ("benzo(a)antracen", "BaA"),
  ("benzo[a]anthracene", "BaA"),
  ("krysen", "Chrysene"),
  ("chrysene", "Chrysene"),
  ("benzo(b)fluoranten", "BbF"),
  ("benzo[b]fluoranthene", "BbF"),
  ("benzo(k)fluoranten", "BkF"),
  ("benzo[k]fluoranthene", "BkF"),
  ("benzo(a)pyren", "BaP"),
  ("benzo[a]pyrene", "BaP"),
  ("indeno(1,2,3-cd)pyren", "IcdP"),
  ("indeno[1,2,3-cd]pyrene", "IcdP"),
  ("dibenzo(a,h)antracen", "DahA"),
  ("dibenz[a,h]anthracene", "DahA"),
  ("benzo(ghi)perylen", "BghiP"),
  ("benzo[ghi]perylene", "BghiP"),
  ("pcb", "PCB"),
  ("polychlorinated biphenyls", "PCB"),
  ("pcb7", "PCB7"),
  ("pcb 7", "PCB7"),
  ("sum pcb7", "PCB7"),
  ("pcb-7", "PCB7"),
  ("pcb 7 (seven dutch)", "PCB7"),
  ("pcb 28", "PCB28"),
  ("pcb28", "PCB28"),
  ("pcb 52", "PCB52"),
  ("pcb52", "PCB52"),
  ("pcb 101", "PCB101"),
  ("pcb101", "PCB101"),
  ("pcb 118", "PCB118"),
  ("pcb118", "PCB118"),
  ("pcb 138", "PCB138"),
  ("pcb138", "PCB138"),
  ("pcb 153", "PCB153"),
  ("pcb153", "PCB153"),
  ("pcb 180", "PCB180"),
  ("pcb180", "PCB180"),
  ("btex", "BTEX"),
  ("sum btex", "BTEX"),
  ("benzen", "Benzene"),
  ("benzene", "Benzene"),
  ("toluen", "Toluene"),
  ("toluene", "Toluene"),
  ("etylbenzen", "Ethylbenzene"),
  ("ethylbenzene", "Ethylbenzene"),
  ("xylen", "Xylene"),
  ("xylene", "Xylene"),
  ("xylener", "Xylene"),
  ("m,p-xylen", "Xylene_mp"),
  ("o-xylen", "Xylene_o"),
  ("pfas", "PFAS"),
  ("sum pfas", "PFAS"),
  ("pfos", "PFOS"),
  ("pfoa", "PFOA"),
  ("tørrstoff", "DryMatter"),
  ("dry matter", "DryMatter"),
  ("ts", "DryMatter"),
  ("tørrstoff (ts)", "DryMatter"),
  ("ts%", "DryMatter"),
  ("ph", "pH"),
  ("toc", "TOC"),
  ("total organic carbon", "TOC"),
  ("totalt organisk karbon", "TOC"),
  ("glødetap", "LOI"),
  ("loss on ignition", "LOI"),
  ("kornfordeling", "GrainSize"),
  ("siktekurve", "GrainSize"),
  ("leire", "Clay"),
  ("silt", "Silt"),
  ("sand", "Sand"),
  ("grus", "Gravel"),
  ("nitrogen", "N"),
  ("total nitrogen", "N_total"),
  ("total-n", "N_total"),
  ("ammonium", "NH4"),
  ("nh4", "NH4"),
  ("ammonium-n", "NH4"),
  ("nitrat", "NO3"),
  ("no3", "NO3"),
  ("nitrat-n", "NO3"),
  ("nitritt", "NO2"),
  ("no2", "NO2"),
  ("nitritt-n", "NO2"),
  ("cyanid", "CN"),
  ("cyanide", "CN"),
  ("cn", "CN"),
  ("sulfat", "SO4"),
  ("sulphate", "SO4"),
  ("klorid", "Cl"),
  ("chloride", "Cl"),
  ("fluorid", "F"),
  ("fluoride", "F")]

def UNIT_CONVERSIONS : List (String × ℚ) := [
  ("mg/kg", mkRat 10 10),
  ("mg/kg ts", mkRat 10 10),
  ("mg/kg dw", mkRat 10 10),
  ("mg/kg tørrstoff", mkRat 10 10),
  ("µg/kg", mkRat 1 1000),
  ("ug/kg", mkRat 1 1000),
  ("μg/kg", mkRat 1 1000),
  ("µg/kg ts", mkRat 1 1000),
  ("ng/kg", mkRat 1 1000000),
  ("g/kg", mkRat 10000 10),
  ("ppm", mkRat 10 10),
  ("ppb", mkRat 1 1000),
  ("%", mkRat 100000 10),
  ("mg/l", mkRat 10 10),
  ("µg/l", mkRat 1 1000)]

def CONCENTRATION_TO_MGKG : List (String × ℚ) := [
  ("mg/kg", mkRat 10 10),
  ("mg/kg ts", mkRat 10 10),
  ("mg/kg dw", mkRat 10 10),
  ("mg/kg tørrstoff", mkRat 10 10),
  ("µg/kg", mkRat 1 1000),
  ("ug/kg", mkRat 1 1000),
  ("μg/kg", mkRat 1 1000),
  ("µg/kg ts", mkRat 1 1000),
  ("ng/kg", mkRat 1 1000000),
  ("g/kg", mkRat 10000 10),
  ("ppm", mkRat 10 10),
  ("ppb", mkRat 1 1000),
  ("%", mkRat 100000 10)]

def TILSTANDSKLASSER : List (String × TkEntry) := [
  ("As", ⟨"Arsen", 8, some 20, some 50, some 600, some 1000⟩),
  ("Pb", ⟨"Bly", 60, some 100, some 300, some 700, some 2500⟩),
  ("Cd", ⟨"Kadmium", mkRat 15 10, some 10, some 15, some 30, some 1000⟩),
  ("Cu", ⟨"Kobber", 100, some 200, some 1000, some 8500, some 25000⟩),
  ("Cr_total", ⟨"Krom (total)", 50, some 200, some 500, some 2800, some 25000⟩),
  ("Cr_VI", ⟨"Krom VI", 2, some 5, some 20, some 80, some 1000⟩),
  ("Hg", ⟨"Kvikksølv", 1, some 2, some 4, some 10, some 1000⟩),
  ("Ni", ⟨"Nikkel", 60, some 135, some 200, some 1200, some 2500⟩),
  ("Zn", ⟨"Sink", 200, some 500, some 1000, some 5000, some 25000⟩),
  ("Cyanid_fri", ⟨"Cyanid fri", 1, none, none, none, none⟩),
  ("PCB7", ⟨"Sum PCB7", mkRat 1 100, some (mkRat 5 10), some 1, some 5, some 50⟩),
  ("Lindan", ⟨"Lindan", mkRat 1 1000, none, none, none, none⟩),
  ("DDT", ⟨"Sum DDT", mkRat 4 100, some 4, some 12, some 30, some 50⟩),
  ("Monoklorbenzen", ⟨"Monoklorbenzen", mkRat 3 100, none, none, none, none⟩),
  ("Diklorbenzen_12", ⟨"1,2-diklorbenzen", mkRat 1 10, none, none, none, none⟩),
  ("Diklorbenzen_14", ⟨"1,4-diklorbenzen", mkRat 7 100, none, none, none, none⟩),
  ("Triklorbenzen_124", ⟨"1,2,4-triklorbenzen", mkRat 5 100, none, none, none, none⟩),
  ("Triklorbenzen_123", ⟨"1,2,3-triklorbenzen", mkRat 1 100, none, none, none, none⟩),
  ("Triklorbenzen_135", ⟨"1,3,5-triklorbenzen", mkRat 1 100, none, none, none, none⟩),
  ("Tetraklorbenzen_1245", ⟨"1,2,4,5-tetraklorbenzen", mkRat 5 100, none, none, none, none⟩),
  ("Pentaklorbenzen", ⟨"Pentaklorbenzen", mkRat 1 10, none, none, none, none⟩),
  ("Heksaklorbenzen", ⟨"Heksaklorbenzen", mkRat 1 100, none, none, none, none⟩),
  ("Diklormetan", ⟨"Diklormetan", mkRat 6 100, none, none, none, none⟩),
  ("Triklormetan", ⟨"Triklormetan", mkRat 2 100, none, none, none, none⟩),
  ("Trikloreten", ⟨"Trikloreten", mkRat 1 10, some (mkRat 2 10), some (mkRat 6 10), some (mkRat 8 10), some 1000⟩),
  ("Tetraklormetan", ⟨"Tetraklormetan", mkRat 2 100, none, none, none, none⟩),
  ("Tetrakloreten", ⟨"Tetrakloreten", mkRat 1 100, none, none, none, none⟩),
  ("Dikloretan_12", ⟨"1,2-dikloretan", mkRat 1 100, none, none, none, none⟩),
  ("Dibrometan_12", ⟨"1,2-dibrometan", mkRat 4 1000, none, none, none, none⟩),
  ("Trikloretan_111", ⟨"1,1,1-trikloretan", mkRat 1 10, none, none, none, none⟩),
  ("Trikloretan_112", ⟨"1,1,2-trikloretan", mkRat 1 100, none, none, none, none⟩),
  ("Fenol", ⟨"Fenol", mkRat 1 10, some 4, some 40, some 400, some 25000⟩),
  ("Klorfenol_sum", ⟨"Sum klorfenol", mkRat 6 100, none, none, none, none⟩),
  ("Pentaklorfenol", ⟨"Pentaklorfenol", mkRat 6 1000, none, none, none, none⟩),
  ("PAH16", ⟨"Sum PAH16", 2, some 8, some 50, some 150, some 2500⟩),
  ("Naftalen", ⟨"Naftalen", mkRat 8 10, none, none, none, none⟩),
  ("Fluoren", ⟨"Fluoren", mkRat 8 10, none, none, none, none⟩),
  ("Fluoranten", ⟨"Fluoranten", 1, none, none, none, none⟩),
  ("Pyren", ⟨"Pyren", 1, none, none, none, none⟩),
  ("BaP", ⟨"Benzo(a)pyren", mkRat 1 10, some (mkRat 5 10), some 5, some 15, some 50⟩),
  ("Benzen", ⟨"Benzen", mkRat 1 100, some (mkRat 15 1000), some (mkRat 4 100), some (mkRat 5 100), some 1000⟩),
  ("Toluen", ⟨"Toluen", mkRat 3 10, none, none, none, none⟩),
  ("Etylbenzen", ⟨"Etylbenzen", mkRat 2 10, none, none, none, none⟩),
  ("Xylen", ⟨"Xylen", mkRat 2 10, none, none, none, none⟩),
  ("C5_C6", ⟨"Alifater C5-C6", 7, none, none, none, none⟩),
  ("C6_C8", ⟨"Alifater >C6-C8", 7, none, none, none, none⟩),
  ("C8_C10", ⟨"Alifater >C8-C10", 10, some 10, some 40, some 50, some 2000⟩),
  ("C10_C12", ⟨"Alifater >C10-C12", 50, some 60, some 130, some 300, some 2000⟩),
  ("C12_C35", ⟨"Alifater >C12-C35", 100, some 300, some 600, some 2000, some 20000⟩),
  ("MTBE", ⟨"MTBE", mkRat 2 10, none, none, none, none⟩),
  ("Tetraetylbly", ⟨"Tetraetylbly", mkRat 1 1000, none, none, none, none⟩),
  ("PBDE_99", ⟨"PBDE-99", mkRat 8 100, none, none, none, none⟩),
  ("PBDE_209", ⟨"PBDE-209", mkRat 2 1000, none, none, none, none⟩),
  ("PFOS", ⟨"PFOS", mkRat 1 10, none, none, none, none⟩),
  ("DEHP", ⟨"DEHP", mkRat 28 10, some 25, some 40, some 60, some 5000⟩),
  ("Dioksiner", ⟨"Dioksiner (TEQ)", mkRat 1 100000, some (mkRat 2 100000), some (mkRat 1 10000), some (mkRat 36 100000), some (mkRat 15 1000)⟩),
  ("TBT", ⟨"TBT", mkRat 15 1000, none, none, none, none⟩),
  ("TPHT", ⟨"TPHT", mkRat 15 1000, none, none, none, none⟩)]

def chemTILSTANDSKLASSER : List (String × ChemClassEntry) := [
  ("As", ⟨8, 8, 20, 50, 1000⟩),
  ("Pb", ⟨60, 60, 100, 300, 1000⟩),
  ("Cd", ⟨mkRat 15 10, mkRat 15 10, 3, 15, 30⟩),
  ("Cu", ⟨100, 100, 200, 1000, 1000⟩),
  ("Cr", ⟨50, 50, 100, 500, 1000⟩),
  ("Cr_VI", ⟨2, 2, 5, 20, 1000⟩),
  ("Hg", ⟨1, 1, 2, 10, 10⟩),
  ("Ni", ⟨60, 60, 100, 500, 1000⟩),
  ("Zn", ⟨200, 200, 500, 1000, 5000⟩),
  ("V", ⟨100, 100, 200, 700, 700⟩),
  ("Co", ⟨20, 20, 50, 300, 1000⟩),
  ("PAH16", ⟨2, 2, 8, 50, 1000⟩),
  ("BaP", ⟨mkRat 1 10, mkRat 1 10, mkRat 5 10, 5, 100⟩),
  ("Naphthalene", ⟨mkRat 8 10, mkRat 8 10, 4, 40, 1000⟩),
  ("PCB7", ⟨mkRat 1 100, mkRat 1 100, mkRat 5 10, 1, 5⟩),
  ("THC", ⟨50, 50, 300, 2000, 5000⟩),
  ("THC_C12-C35", ⟨50, 50, 300, 2000, 5000⟩),
  ("THC_C16-C35", ⟨50, 50, 300, 2000, 5000⟩),
  ("Benzene", ⟨mkRat 1 100, mkRat 1 100, mkRat 5 100, 1, 5⟩),
  ("CN", ⟨1, 1, 5, 100, 500⟩)]

/-- Does the character list start with a whitespace character? (used to model
the mandatory `\\s+` of the prefix-stripping regex). -/
def headIsWS : List Char → Bool
  | c :: _ => isPyWS c
  | [] => false

/-- `re.sub(r'^(sum\\s+|total\\s+)', '', ·)` of `normalize_parameter_name`:
if the list starts with `sum` or `total` followed by at least one whitespace
character, remove the word and the (greedy) whitespace run after it. -/
def subSumTotal (l : List Char) : List Char :=
  if ['s', 'u', 'm'].isPrefixOf l && headIsWS (l.drop 3) then
    (l.drop 3).dropWhile isPyWS
  else if ['t', 'o', 't', 'a', 'l'].isPrefixOf l && headIsWS (l.drop 5) then
    (l.drop 5).dropWhile isPyWS
  else l

/-- `re.sub(r'\\s*\\(.*\\)$', '', ·)` of `normalize_parameter_name` for
newline-free inputs: when the string ends in `)` and contains a `(`, the
leftmost match starts at the whitespace run preceding the first `(` and runs
to the end; everything from there is removed. -/
def subTrailingParen (l : List Char) : List Char :=
  if l.getLast? == some ')' && l.contains '(' then
    ((l.takeWhile (fun c => c != '(')).reverse.dropWhile isPyWS).reverse
  else l

/-- The alias-lookup branch of `chemistry.normalize_parameter_name`, applied to
the already-stripped label `name_str`: exact Eurofins-column match first, then
lowercase, strip a `sum`/`total` word and a trailing parenthetical, and look
the cleaned form up in `PARAMETER_ALIASES`; unresolved labels are returned
unchanged. -/
def normalizeStripped (name_str : String) : String :=
  match dictGet EUROFINS_ALI_COLUMN_MAP name_str with
  | some code => code
  | none =>
    let clean : List Char := subTrailingParen (subSumTotal (lowerStr name_str).data)
    match dictGet PARAMETER_ALIASES ⟨clean⟩ with
    | some code => code
    | none => name_str

/-- `chemistry.normalize_parameter_name` (the `pd.isna` branch concerns the
missing-cell sentinel, which is outside the string universe modelled here). -/
def normalize_parameter_name (name : String) : String :=
  normalizeStripped (pyStrip name)

/-- `chemistry.get_parameter_code`: ALS Excel column map first, then the
Eurofins column map, then `normalize_parameter_name` on the stripped label. -/
def get_parameter_code (column_name : String) : String :=
  let name_str := pyStrip column_name
  match dictGet ALS_EXCEL_COLUMN_MAP name_str with
  | some code => code
  | none =>
    match dictGet EUROFINS_ALI_COLUMN_MAP name_str with
    | some code => code
    | none => normalize_parameter_name name_str

/-- Tail of a Python float `digitpart` after its first digit: digits with
single underscores allowed between digits. -/
def validTail : List Char → Bool
  | [] => true
  | c :: rest =>
    if c = '_' then
      match rest with
      | d :: rest2 => d.isDigit && validTail rest2
      | [] => false
    else c.isDigit && validTail rest

/-- Python float `digitpart`: `digit (["_"] digit)*`. -/
def validDigitPart (l : List Char) : Bool :=
  match l with
  | [] => false
  | c :: rest => c.isDigit && validTail rest

/-- Numeric value of a digitpart (underscores skipped). -/
def digitVal (l : List Char) : ℕ :=
  l.foldl (fun a c => if c.isDigit then a * 10 + (c.toNat - 48) else a) 0

/-- Number of digits in a digitpart (underscores not counted). -/
def digitCount (l : List Char) : ℕ := (l.filter Char.isDigit).length

/-- Split a list at the first character satisfying `p`; the separator is kept
in neither part, `none` meaning no separator was found. -/
def splitAtFirst (p : Char → Bool) : List Char → List Char × Option (List Char)
  | [] => ([], none)
  | c :: rest =>
    if p c then ([], some rest)
    else
      let (a, b) := splitAtFirst p rest
      (c :: a, b)

/-- Python `float(...)` on a sign-free, whitespace-free numeral:
`digitpart ["." [digitpart]] [exponent]` or `"." digitpart [exponent]` with
`exponent = ("e"|"E") [sign] digitpart`. The rational value is assembled with
integer arithmetic and `mkRat` (same value as mantissa times ten to the
exponent). -/
def pyFloatCore (l : List Char) : Option ℚ :=
  let me := splitAtFirst (fun c => c = 'e' || c = 'E') l
  let ifr := splitAtFirst (fun c => c = '.') me.1
  let mantOk : Bool :=
    match ifr.2 with
    | none => validDigitPart ifr.1
    | some f =>
      (validDigitPart ifr.1 && (f.isEmpty || validDigitPart f)) ||
        (ifr.1.isEmpty && validDigitPart f)
  let expVal : Option (Bool × ℕ) :=
    match me.2 with
    | none => some (false, 0)
    | some e =>
      match e with
      | '+' :: r => if validDigitPart r then some (false, digitVal r) else none
      | '-' :: r => if validDigitPart r then some (true, digitVal r) else none
      | _ => if validDigitPart e then some (false, digitVal e) else none
  if mantOk then
    match expVal with
    | some (sgn, ex) =>
      let f := ifr.2.getD []
      let n : ℕ := digitVal ifr.1 * 10 ^ digitCount f + digitVal f
      if sgn then some (mkRat (n : ℤ) (10 ^ digitCount f * 10 ^ ex))
      else some (mkRat ((n * 10 ^ ex : ℕ) : ℤ) (10 ^ digitCount f))
    | none => none
  else none

/-- Python `float(str)` for finite decimal numerals: strip whitespace, take an
optional sign, then parse the numeral (`inf`/`nan` have no rational
counterpart and are outside the model). -/
def pyFloat (s : String) : Option ℚ :=
  match stripL s.data with
  | '+' :: r => pyFloatCore r
  | '-' :: r => (pyFloatCore r).map (fun q => -q)
  | l => pyFloatCore l

/-- The not-detected tokens of `chemistry.parse_value`. -/
def ndTokens : List String :=
  ["n.d.", "nd", "ikke påvist", "not detected", "-", "i.p."]

/-- The character class `[<&lt;]` of the marker-stripping regex in
`chemistry.parse_value`; written that way in the source, it contains the five
characters `<`, `&`, `l`, `t` and `;` (so it also consumes the semicolon of
the HTML escape `&lt;`). -/
def angleClass (c : Char) : Bool :=
  c = '<' || c = '&' || c = 'l' || c = 't' || c = ';'

/-- `re.sub(r'^[<&lt;]+\\s*', '', ·)`: drop the leading run of class
characters, then the whitespace run after it (only called when the string
starts with `<` or `&lt;`, so the `+` is satisfied). -/
def stripAngle (l : List Char) : List Char :=
  (l.dropWhile angleClass).dropWhile isPyWS

/-- `.replace(',', '.')` of `parse_value` (single-character replace). -/
def commaToDot (l : List Char) : List Char :=
  l.map (fun c => if c = ',' then '.' else c)

/-- `.replace(' ', '')` of `parse_value`: delete every space character. -/
def removeSpaces (l : List Char) : List Char :=
  l.filter (fun c => c != ' ')

/-- `re.sub(r'[a-zA-Z/]+$', '', ·)` of `parse_value`: remove the maximal
trailing run of ASCII letters and slashes. -/
def dropTrailingAlphaSlash (l : List Char) : List Char :=
  (l.reverse.dropWhile (fun c => c.isAlpha || c = '/')).reverse

/-- The numeric cleaning pipeline of `parse_value`: Norwegian decimal comma to
point, embedded spaces deleted, trailing unit text removed. -/
def cleanNumeric (l : List Char) : List Char :=
  dropTrailingAlphaSlash (removeSpaces (commaToDot l))

/-- `chemistry.parse_value`: returns `(numeric value, below-detection-limit)`.
The `pd.isna` branch (missing cell) is outside the string universe. -/
def parse_value (value : String) : Option ℚ × Bool :=
  let vs : List Char := stripL value.data
  let below : Bool := ['<'].isPrefixOf vs || ['&', 'l', 't', ';'].isPrefixOf vs
  let vs : List Char := if below then stripAngle vs else vs
  if ndTokens.contains ⟨vs.map lowerChar⟩ then (some 0, true)
  else
    match pyFloat ⟨cleanNumeric vs⟩ with
    | some numeric => (some numeric, below)
    | none => (none, false)

/-- One output record of the ALS PDF parser (`parsers/als_pdf.py`). -/
structure AlsResult where
  sample_id : String
  parameter : String
  parameter_raw : String
  value : Option ℚ
  unit : String
  uncertainty : Option ℚ
  below_limit : Bool
  loq : Option ℚ
  analysis_type : String

/-- `als_pdf._build_als_result`: builds a Result record from a raw value
string (`<`-marked below-limit values, not-detected tokens, plain numbers);
returns `none` when a plain value fails to parse. -/
def buildAlsResult (sample_id param_code param_raw : String) (value_str : String)
    (unit : String) (uncertainty_str : Option String) (analysis_type : String) :
    Option AlsResult :=
  let uncertainty : Option ℚ :=
    match uncertainty_str with
    | some u => pyFloat ⟨commaToDot u.data⟩
    | none => none
  if ['<'].isPrefixOf value_str.data then
    match pyFloat ⟨value_str.data.drop 1⟩ with
    | some q =>
      some ⟨sample_id, param_code, param_raw, some q, unit, uncertainty, true, some q,
        analysis_type⟩
    | none =>
      some ⟨sample_id, param_code, param_raw, none, unit, uncertainty, true, none,
        analysis_type⟩
  else if ["n.d.", "nd", "n.d"].contains ⟨value_str.data.map lowerChar⟩ then
    some ⟨sample_id, param_code, param_raw, some 0, unit, uncertainty, true, none,
      analysis_type⟩
  else
    match pyFloat value_str with
    | some q =>
      some ⟨sample_id, param_code, param_raw, some q, unit, uncertainty, false, none,
        analysis_type⟩
    | none => none

/-- `thresholds.get_tilstandsklasse`: ascending comparison against the tier
bounds; `none` models Python `None` (parameter unknown, or only the normverdi
defined and exceeded). In the literal table `TK3` and `TK4` are always defined
when `TK2` is, so the final two `none` branches are unreachable on the data
(Python would raise a `TypeError` there); see the C9 theorem. -/
def get_tilstandsklasse (parameter : String) (value : ℚ) : Option ℕ :=
  match dictGet TILSTANDSKLASSER parameter with
  | none => none
  | some t =>
    if value ≤ t.TK1 then some 1
    else
      match t.TK2 with
      | none => none
      | some tk2 =>
        if value ≤ tk2 then some 2
        else
          match t.TK3 with
          | none => none
          | some tk3 =>
            if value ≤ tk3 then some 3
            else
              match t.TK4 with
              | none => none
              | some tk4 => if value ≤ tk4 then some 4 else some 5

/-- One iteration of the loop of `thresholds.get_sample_tilstandsklasse`, on
the running `(worst_class, limiting_params)` state. -/
def aggStep (st : ℕ × List String) (e : String × Option ℕ) : ℕ × List String :=
  match e.2 with
  | none => st
  | some tk =>
    if st.1 < tk then (tk, [e.1])
    else if tk = st.1 ∧ 1 < tk then (st.1, st.2 ++ [e.1])
    else st

/-- The aggregation loop of `thresholds.get_sample_tilstandsklasse`, taken over
an explicit list of per-parameter classifications. -/
def aggregateTiers (l : List (String × Option ℕ)) : ℕ × List String :=
  l.foldl aggStep (1, [])

/-- `thresholds.get_sample_tilstandsklasse`: classify each parameter value and
aggregate (the Python argument is a dict, modelled as its item list). -/
def get_sample_tilstandsklasse (results : List (String × ℚ)) : ℕ × List String :=
  aggregateTiers (results.map (fun pv => (pv.1, get_tilstandsklasse pv.1 pv.2)))

/-- `chemistry.classify_contamination`: roman-numeral class from the
`chemistry.py` threshold table, `"Unknown"` for a missing value or parameter. -/
def classify_contamination (parameter : String) (value : Option ℚ) : String :=
  match value with
  | none => "Unknown"
  | some v =>
    match dictGet chemTILSTANDSKLASSER parameter with
    | none => "Unknown"
    | some limits =>
      if v ≤ limits.I then "I"
      else if v ≤ limits.II then "II"
      else if v ≤ limits.III then "III"
      else if v ≤ limits.IV then "IV"
      else "V"

/-- `conversions.convert_units`: factors looked up case-insensitively with
unknown units defaulting to 1.0; `value * factor(from) / factor(to)`. -/
def conversions_convert_units (value : Option ℚ) (from_unit to_unit : String) :
    Option ℚ :=
  match value with
  | none => none
  | some v =>
    let from_factor := (dictGet CONCENTRATION_TO_MGKG (pyStrip (lowerStr from_unit))).getD 1
    let to_factor := (dictGet CONCENTRATION_TO_MGKG (pyStrip (lowerStr to_unit))).getD 1
    some (v * from_factor / to_factor)

/-- `chemistry.convert_units`: same computation over the `UNIT_CONVERSIONS`
table of `chemistry.py`. -/
def chemistry_convert_units (value : Option ℚ) (from_unit to_unit : String) :
    Option ℚ :=
  match value with
  | none => none
  | some v =>
    let from_factor := (dictGet UNIT_CONVERSIONS (pyStrip (lowerStr from_unit))).getD 1
    let to_factor := (dictGet UNIT_CONVERSIONS (pyStrip (lowerStr to_unit))).getD 1
    some (v * from_factor / to_factor)

/-- The defined tier bounds of a `thresholds.py` row, in tier order. -/
def definedTiers (e : TkEntry) : List ℚ :=
  e.TK1 :: ([e.TK2, e.TK3, e.TK4, e.TK5].filterMap id)

/-- Executable check that a list of bounds is non-decreasing. -/
def nondecreasing : List ℚ → Bool
  | a :: b :: rest => decide (a ≤ b) && nondecreasing (b :: rest)
  | _ => true

/-- Fuel-driven binary logarithm (`Nat.log2` itself is not kernel-reducible;
with fuel at least the argument this computes the same value). -/
def log2F : ℕ → ℕ → ℕ
  | 0, _ => 0
  | fuel + 1, n => if 2 ≤ n then log2F fuel (n / 2) + 1 else 0

/-- Number of binary digits of a natural number. -/
def natBits (n : ℕ) : ℕ := if n = 0 then 0 else log2F n n + 1

/-- A positive finite IEEE binary64 value `man · 2 ^ exp`. Values produced by
`roundFS` are normalized (`2 ^ 52 ≤ man < 2 ^ 53`, within the normal range of
the format), so structural equality coincides with value equality. -/
structure F64 where
  man : ℕ
  exp : ℤ
deriving DecidableEq

/-- Numerator of `(n/d) · 2 ^ (-e)` written as a fraction of naturals:
a negative `e` multiplies the numerator by a power of two. -/
def scaleNum (n : ℕ) (e : ℤ) : ℕ := if 0 ≤ e then n else n * 2 ^ (-e).toNat

/-- Denominator of `(n/d) · 2 ^ (-e)`: a positive `e` multiplies the
denominator by a power of two. -/
def scaleDen (d : ℕ) (e : ℤ) : ℕ := if 0 ≤ e then d * 2 ^ e.toNat else d

/-- Round `(n/d) · 2 ^ (-e)` to the nearest integer, ties to even
(the IEEE round-to-nearest rounding of the mantissa at exponent `e`). -/
def roundAt (n d : ℕ) (e : ℤ) : ℕ :=
  let N := scaleNum n e
  let D := scaleDen d e
  let q := N / D
  let r := N % D
  if 2 * r < D then q
  else if D < 2 * r then q + 1
  else if q % 2 = 0 then q else q + 1

/-- The exponent at which the 53-bit mantissa of `n/d` lives: by the bit
lengths the binade of `n/d` is `E - 1` or `E`, so the mantissa exponent is
`E - 53` or `E - 52`; test the first. -/
def pickExp (n d : ℕ) : ℤ :=
  let E : ℤ := (natBits n : ℤ) - (natBits d : ℤ)
  if scaleNum n (E - 53) / scaleDen d (E - 53) < 2 ^ 53 then E - 53 else E - 52

/-- Round the positive rational `(n/d) · 2 ^ sh` to the nearest binary64 value
(round to nearest, ties to even), for results in the normal range; a mantissa
overflow to `2 ^ 53` carries into the exponent, keeping the result
normalized. This model is validated operation-by-operation against IEEE
double arithmetic. -/
def roundFS (n d : ℕ) (sh : ℤ) : F64 :=
  let e := pickExp n d
  let m := roundAt n d e
  if m = 2 ^ 53 then ⟨2 ^ 52, e + 1 + sh⟩ else ⟨m, e + sh⟩

/-- The binary64 value of the positive decimal literal `n/d` (Python float
literals are correctly rounded). -/
def f64ofDec (n d : ℕ) : F64 := roundFS n d 0

/-- IEEE binary64 multiplication of positive finite values: the exact product
`(a.man · b.man) · 2 ^ (a.exp + b.exp)` rounded once to nearest-even. -/
def fmul (a b : F64) : F64 := roundFS (a.man * b.man) 1 (a.exp + b.exp)

/-- IEEE binary64 division of positive finite values: the exact quotient
`(a.man / b.man) · 2 ^ (a.exp - b.exp)` rounded once to nearest-even. -/
def fdiv (a b : F64) : F64 := roundFS a.man b.man (a.exp - b.exp)

/-- The `conversions.py` factor table with each value as the binary64 number
the Python float literal denotes. -/
def CONCENTRATION_TO_MGKG_F : List (String × F64) := [
  ("mg/kg", f64ofDec 1 1),
  ("mg/kg ts", f64ofDec 1 1),
  ("mg/kg dw", f64ofDec 1 1),
  ("mg/kg tørrstoff", f64ofDec 1 1),
  ("µg/kg", f64ofDec 1 1000),
  ("ug/kg", f64ofDec 1 1000),
  ("μg/kg", f64ofDec 1 1000),
  ("µg/kg ts", f64ofDec 1 1000),
  ("ng/kg", f64ofDec 1 1000000),
  ("g/kg", f64ofDec 1000 1),
  ("ppm", f64ofDec 1 1),
  ("ppb", f64ofDec 1 1000),
  ("%", f64ofDec 10000 1)]

/-- The `chemistry.py` factor table with its values as binary64 numbers. -/
def UNIT_CONVERSIONS_F : List (String × F64) := [
  ("mg/kg", f64ofDec 1 1),
  ("mg/kg ts", f64ofDec 1 1),
  ("mg/kg dw", f64ofDec 1 1),
  ("mg/kg tørrstoff", f64ofDec 1 1),
  ("µg/kg", f64ofDec 1 1000),
  ("ug/kg", f64ofDec 1 1000),
  ("μg/kg", f64ofDec 1 1000),
  ("µg/kg ts", f64ofDec 1 1000),
  ("ng/kg", f64ofDec 1 1000000),
  ("g/kg", f64ofDec 1000 1),
  ("ppm", f64ofDec 1 1),
  ("ppb", f64ofDec 1 1000),
  ("%", f64ofDec 10000 1),
  ("mg/l", f64ofDec 1 1),
  ("µg/l", f64ofDec 1 1000)]

/-- `conversions.convert_units` in the binary64 arithmetic the Python program
actually performs: `value * factor(from) / factor(to)` with a rounding after
the multiplication and after the division, factors defaulting to 1.0. -/
def conversions_convert_units_f64 (value : F64) (from_unit to_unit : String) :
    F64 :=
  let from_factor :=
    (dictGet CONCENTRATION_TO_MGKG_F (pyStrip (lowerStr from_unit))).getD (f64ofDec 1 1)
  let to_factor :=
    (dictGet CONCENTRATION_TO_MGKG_F (pyStrip (lowerStr to_unit))).getD (f64ofDec 1 1)
  fdiv (fmul value from_factor) to_factor

/-- `chemistry.convert_units` in binary64 arithmetic, over the `chemistry.py`
factor table. -/
def chemistry_convert_units_f64 (value : F64) (from_unit to_unit : String) :
    F64 :=
  let from_factor :=
    (dictGet UNIT_CONVERSIONS_F (pyStrip (lowerStr from_unit))).getD (f64ofDec 1 1)
  let to_factor :=
    (dictGet UNIT_CONVERSIONS_F (pyStrip (lowerStr to_unit))).getD (f64ofDec 1 1)
  fdiv (fmul value from_factor) to_factor


/-- The characters a claim-side numeral may consist of (digits and the decimal
point); used to delimit the value strings quantified over in the below-limit
theorems. -/
def numeralChars : List Char :=
  ['0', '1', '2', '3', '4', '5', '6', '7', '8', '9', '.']

/-- Character-level facts about numeral characters: they are not whitespace,
not in the marker class, fixed by lowercasing, not commas or spaces, and not
ASCII letters or slashes. -/
theorem numeralChars_props : ∀ c ∈ numeralChars,
    isPyWS c = false ∧ angleClass c = false ∧ lowerChar c = c ∧
      (c == ',') = false ∧ (c != ' ') = true ∧ (c.isAlpha || c = '/') = false := by
  decide

/-- Dropping a prefix by a predicate that fails on the head changes nothing. -/
theorem dropWhile_eq_self_of_head {p : Char → Bool} {l : List Char}
    (h : ∀ c, l.head? = some c → p c = false) : l.dropWhile p = l := by
  cases l with
  | nil => rfl
  | cons a t => simp [List.dropWhile_cons, h a rfl]

/-- A list all of whose characters are non-whitespace is fixed by `stripL`. -/
theorem stripL_eq_self {l : List Char} (h : ∀ c ∈ l, isPyWS c = false) :
    stripL l = l := by
  unfold stripL
  rw [dropWhile_eq_self_of_head (fun c hc => h c (List.mem_of_mem_head? hc)),
    dropWhile_eq_self_of_head (fun c hc => h c (by
      have hm := List.mem_of_mem_head? hc
      exact (List.mem_reverse).mp hm)), List.reverse_reverse]

/-- The map sending commas to points fixes lists of numeral characters. -/
theorem commaToDot_eq_self {l : List Char} (h : ∀ c ∈ l, c ∈ numeralChars) :
    commaToDot l = l := by
  unfold commaToDot
  induction l with
  | nil => rfl
  | cons a t ih =>
    have ha := (numeralChars_props a (h a (List.mem_cons_self a t))).2.2.2.1
    have ha2 : ¬ (a = ',') := by simpa using ha
    simp [ha2, ih (fun c hc => h c (List.mem_cons_of_mem a hc))]

/-- Space removal fixes lists of numeral characters. -/
theorem removeSpaces_eq_self {l : List Char} (h : ∀ c ∈ l, c ∈ numeralChars) :
    removeSpaces l = l := by
  unfold removeSpaces
  exact List.filter_eq_self.mpr (fun c hc => (numeralChars_props c (h c hc)).2.2.2.2.1)

/-- Trailing-unit-text removal fixes lists of numeral characters. -/
theorem dropTrailingAlphaSlash_eq_self {l : List Char}
    (h : ∀ c ∈ l, c ∈ numeralChars) : dropTrailingAlphaSlash l = l := by
  unfold dropTrailingAlphaSlash
  rw [dropWhile_eq_self_of_head (fun c hc => by
      have hc2 : c ∈ l := (List.mem_reverse).mp (List.mem_of_mem_head? hc)
      exact (numeralChars_props c (h c hc2)).2.2.2.2.2), List.reverse_reverse]

/-- The whole numeric cleaning pipeline fixes numeral strings. -/
theorem cleanNumeric_eq_self {l : List Char} (h : ∀ c ∈ l, c ∈ numeralChars) :
    cleanNumeric l = l := by
  unfold cleanNumeric
  rw [commaToDot_eq_self h, removeSpaces_eq_self h, dropTrailingAlphaSlash_eq_self h]

/-- Lowercasing fixes numeral strings. -/
theorem mapLower_eq_self {l : List Char} (h : ∀ c ∈ l, c ∈ numeralChars) :
    l.map lowerChar = l := by
  induction l with
  | nil => rfl
  | cons a t ih =>
    have ha := (numeralChars_props a (h a (List.mem_cons_self a t))).2.2.1
    simp [ha, ih (fun c hc => h c (List.mem_cons_of_mem a hc))]

/-- A string of numeral characters is none of the not-detected tokens (each
token contains a character that is not a digit or point). -/
theorem ndTokens_contains_false {l : List Char} (h : ∀ c ∈ l, c ∈ numeralChars) :
    ndTokens.contains (⟨l⟩ : String) = false := by
  have key : (⟨l⟩ : String) ∉ ndTokens := by
    intro hmem
    have hdata : ∃ t ∈ ndTokens, l = t.data := ⟨⟨l⟩, hmem, rfl⟩
    obtain ⟨t, ht, hl⟩ := hdata
    have hbad : ∃ c ∈ t.data, c ∉ numeralChars := by
      fin_cases ht <;> decide
    obtain ⟨c, hct, hcn⟩ := hbad
    exact hcn (h c (hl ▸ hct))
  simpa using key

/-- Marker stripping after a single `<`: on a numeral tail nothing further is
consumed. -/
theorem stripAngle_lt {l : List Char} (h : ∀ c ∈ l, c ∈ numeralChars) :
    stripAngle ('<' :: l) = l := by
  unfold stripAngle
  have h1 : List.dropWhile angleClass ('<' :: l) = List.dropWhile angleClass l := by
    simp [List.dropWhile_cons, angleClass]
  rw [h1, dropWhile_eq_self_of_head (fun c hc =>
      (numeralChars_props c (h c (List.mem_of_mem_head? hc))).2.1),
    dropWhile_eq_self_of_head (fun c hc =>
      (numeralChars_props c (h c (List.mem_of_mem_head? hc))).1)]

/-- Marker stripping after the HTML escape `&lt;`: the four characters of the
escape are all in the class `[<&lt;]`, so they are consumed and a numeral tail
is untouched. -/
theorem stripAngle_ampLt {l : List Char} (h : ∀ c ∈ l, c ∈ numeralChars) :
    stripAngle ('&' :: 'l' :: 't' :: ';' :: l) = l := by
  unfold stripAngle
  have h1 : List.dropWhile angleClass ('&' :: 'l' :: 't' :: ';' :: l) =
      List.dropWhile angleClass l := by
    simp [List.dropWhile_cons, angleClass]
  rw [h1, dropWhile_eq_self_of_head (fun c hc =>
      (numeralChars_props c (h c (List.mem_of_mem_head? hc))).2.1),
    dropWhile_eq_self_of_head (fun c hc =>
      (numeralChars_props c (h c (List.mem_of_mem_head? hc))).1)]

/-- A successful dict lookup returns the value of some table entry. -/
theorem dictGet_mem {m : List (String × ℚ)} {k : String} {f : ℚ}
    (h : dictGet m k = some f) : ∃ p ∈ m, p.2 = f := by
  unfold dictGet at h
  cases hf : m.find? (fun e => e.1 == k) with
  | none => rw [hf] at h; simp at h
  | some p =>
    rw [hf] at h
    exact ⟨p, List.mem_of_find?_eq_some hf, Option.some.inj h⟩

/-- Every factor of the `conversions.py` table is nonzero. -/
theorem CONC_factors_nonzero : ∀ p ∈ CONCENTRATION_TO_MGKG, p.2 ≠ 0 := by decide

/-- Every factor of the `chemistry.py` unit table is nonzero. -/
theorem UNIT_factors_nonzero : ∀ p ∈ UNIT_CONVERSIONS, p.2 ≠ 0 := by decide

/-- The worst-class component of the aggregation loop is the maximum of the
defined tiers over the floor given by the initial state. -/
theorem aggFold_fst (l : List (String × Option ℕ)) (w : ℕ) (L : List String) :
    (l.foldl aggStep (w, L)).1 = (l.filterMap Prod.snd).foldl max w := by
  induction l generalizing w L with
  | nil => rfl
  | cons e rest ih =>
    obtain ⟨p, ot⟩ := e
    cases ot with
    | none => simpa [aggStep] using ih w L
    | some t =>
      simp only [List.foldl_cons, List.filterMap_cons, aggStep]
      by_cases h1 : w < t
      · rw [if_pos h1, ih]
        simp [Nat.max_eq_right h1.le]
      · by_cases h2 : t = w ∧ 1 < t
        · rw [if_neg h1, if_pos h2, ih]
          simp [h2.1]
        · rw [if_neg h1, if_neg h2, ih]
          simp [Nat.max_eq_left (Nat.not_lt.mp h1)]

/-- The initial floor never decreases under `foldl max`. -/
theorem le_foldl_max (l : List ℕ) (w : ℕ) : w ≤ l.foldl max w := by
  induction l generalizing w with
  | nil => exact Nat.le_refl w
  | cons t rest ih => exact Nat.le_trans (Nat.le_max_left w t) (ih (max w t))

/-- The worst class is monotone in the initial state. -/
theorem aggFold_fst_le (l : List (String × Option ℕ)) (w : ℕ) (L : List String) :
    w ≤ (l.foldl aggStep (w, L)).1 := by
  rw [aggFold_fst]
  exact le_foldl_max _ w

/-- Membership in the limiting list after the aggregation loop: a parameter is
limiting iff it either occurs in the input with tier equal to the final worst
class (when that exceeds 1), or was already limiting in the initial state and
the worst class did not move. -/
theorem aggFold_mem (l : List (String × Option ℕ)) (w : ℕ) (L : List String)
    (hw : 1 ≤ w) (p : String) :
    p ∈ (l.foldl aggStep (w, L)).2 ↔
      (1 < (l.foldl aggStep (w, L)).1 ∧ (p, some (l.foldl aggStep (w, L)).1) ∈ l) ∨
        ((l.foldl aggStep (w, L)).1 = w ∧ p ∈ L) := by
  induction l generalizing w L with
  | nil => simp
  | cons e rest ih =>
    obtain ⟨q, ot⟩ := e
    cases ot with
    | none =>
      have step : aggStep (w, L) (q, none) = (w, L) := rfl
      simp only [List.foldl_cons, step]
      rw [ih w L hw]
      simp [List.mem_cons]
    | some t =>
      by_cases h1 : w < t
      · have step : aggStep (w, L) (q, some t) = (t, [q]) := by
          simp [aggStep, h1]
        simp only [List.foldl_cons, step]
        have hW : t ≤ (rest.foldl aggStep (t, [q])).1 := aggFold_fst_le rest t [q]
        have hW1 : 1 < (rest.foldl aggStep (t, [q])).1 := by omega
        have hWw : (rest.foldl aggStep (t, [q])).1 ≠ w := by omega
        rw [ih t [q] (by omega) ]
        constructor
        · rintro (⟨hgt, hmem⟩ | ⟨hw2, hp⟩)
          · exact Or.inl ⟨hgt, List.mem_cons_of_mem _ hmem⟩
          · refine Or.inl ⟨hW1, ?_⟩
            simp only [List.mem_cons] at hp ⊢
            rcases hp with hp | hp
            · exact Or.inl (by rw [hp, hw2])
            · simp at hp
        · rintro (⟨hgt, hmem⟩ | ⟨hw2, _⟩)
          · rcases List.mem_cons.mp hmem with heq | hmem2
            · have hpq : p = q := (Prod.mk.injEq _ _ _ _ ▸ heq).1
              have hWt : (rest.foldl aggStep (t, [q])).1 = t := by
                have := (Prod.mk.injEq _ _ _ _ ▸ heq).2
                exact (Option.some.injEq _ _ ▸ this.symm) ▸ rfl
              exact Or.inr ⟨hWt, by simp [hpq]⟩
            · exact Or.inl ⟨hgt, hmem2⟩
          · exact absurd hw2 hWw
      · by_cases h2 : t = w ∧ 1 < t
        · have step : aggStep (w, L) (q, some t) = (w, L ++ [q]) := by
            simp only [aggStep]
            rw [if_neg h1, if_pos h2]
          have hw1 : 1 < w := h2.1 ▸ h2.2
          simp only [List.foldl_cons, step]
          have hWw : w ≤ (rest.foldl aggStep (w, L ++ [q])).1 := aggFold_fst_le _ _ _
          have hW1 : 1 < (rest.foldl aggStep (w, L ++ [q])).1 := by omega
          rw [ih w (L ++ [q]) hw]
          constructor
          · rintro (⟨hgt, hmem⟩ | ⟨hw2, hp⟩)
            · exact Or.inl ⟨hgt, List.mem_cons_of_mem _ hmem⟩
            · rcases List.mem_append.mp hp with hp | hp
              · exact Or.inr ⟨hw2, hp⟩
              · refine Or.inl ⟨hW1, ?_⟩
                simp only [List.mem_singleton] at hp
                exact List.mem_cons.mpr (Or.inl (by rw [hp, hw2, h2.1]))
          · rintro (⟨hgt, hmem⟩ | ⟨hw2, hp⟩)
            · rcases List.mem_cons.mp hmem with heq | hmem2
              · have hpq : p = q := (Prod.mk.injEq _ _ _ _ ▸ heq).1
                have hWt : (rest.foldl aggStep (w, L ++ [q])).1 = t := by
                  have h3 := (Prod.mk.injEq _ _ _ _ ▸ heq).2
                  simpa using h3
                exact Or.inr ⟨by rw [hWt, h2.1], by simp [hpq]⟩
              · exact Or.inl ⟨hgt, hmem2⟩
            · exact Or.inr ⟨hw2, List.mem_append.mpr (Or.inl hp)⟩
        · have step : aggStep (w, L) (q, some t) = (w, L) := by
            simp only [aggStep]
            rw [if_neg h1, if_neg h2]
          simp only [List.foldl_cons, step]
          have ht : t ≤ w := Nat.not_lt.mp h1
          have hWw : w ≤ (rest.foldl aggStep (w, L)).1 := aggFold_fst_le _ _ _
          rw [ih w L hw]
          constructor
          · rintro (⟨hgt, hmem⟩ | ⟨hw2, hp⟩)
            · exact Or.inl ⟨hgt, List.mem_cons_of_mem _ hmem⟩
            · exact Or.inr ⟨hw2, hp⟩
          · rintro (⟨hgt, hmem⟩ | ⟨hw2, hp⟩)
            · rcases List.mem_cons.mp hmem with heq | hmem2
              · exfalso
                have hpq := (Prod.mk.injEq _ _ _ _ ▸ heq).2
                have hWt : (rest.foldl aggStep (w, L)).1 = t := by simpa using hpq
                have : ¬ (t = w ∧ 1 < t) := h2
                omega
              · exact Or.inl ⟨hgt, hmem2⟩
            · exact Or.inr ⟨hw2, hp⟩

/-- Claim C1: the threshold classifier returns tier 1 whenever the value is at
most the tier-1 boundary (even if no higher tiers are defined); it returns
`none` (Undetermined), not tier 5, whenever the parameter defines only tier 1
and the value exceeds it; and it returns Undetermined whenever the parameter
code is absent from the threshold table (likewise `classify_contamination`
returns Unknown for codes absent from the `chemistry.py` table). -/
theorem C1_threshold_classifier (p : String) (v : ℚ) (t : TkEntry)
    (h : dictGet TILSTANDSKLASSER p = some t) :
    (v ≤ t.TK1 → get_tilstandsklasse p v = some 1) ∧
    (t.TK2 = none → t.TK3 = none → t.TK4 = none → t.TK5 = none →
      t.TK1 < v → get_tilstandsklasse p v = none) ∧
    (∀ q : String, dictGet TILSTANDSKLASSER q = none →
      ∀ w : ℚ, get_tilstandsklasse q w = none) ∧
    (∀ q : String, dictGet chemTILSTANDSKLASSER q = none →
      ∀ w : ℚ, classify_contamination q (some w) = "Unknown") := by
  refine ⟨?_, ?_, ?_, ?_⟩
  · intro hv
    simp [get_tilstandsklasse, h, hv]
  · intro h2 _ _ _ hlt
    simp [get_tilstandsklasse, h, not_le.mpr hlt, h2]
  · intro q hq w
    simp [get_tilstandsklasse, hq]
  · intro q hq w
    simp [classify_contamination, hq]

/-- Witness for C1 at concrete inputs: As 5 (below normverdi 8) is tier 1,
Toluen 100 (only tier 1 = 0.3 defined) is Undetermined, an unknown code is
Undetermined, and `classify_contamination` yields Unknown for Toluen. -/
theorem C1_threshold_classifier_witness :
    get_tilstandsklasse "As" 5 = some 1 ∧
    get_tilstandsklasse "Toluen" 100 = none ∧
    get_tilstandsklasse "Ukjent" 3 = none ∧
    classify_contamination "Toluen" (some 100) = "Unknown" := by
  refine ⟨?_, ?_, ?_, ?_⟩
  · exact (C1_threshold_classifier "As" 5
      ⟨"Arsen", 8, some 20, some 50, some 600, some 1000⟩ rfl).1 (by decide)
  · exact (C1_threshold_classifier "Toluen" 100
      ⟨"Toluen", mkRat 3 10, none, none, none, none⟩ rfl).2.1 rfl rfl rfl rfl (by decide)
  · exact (C1_threshold_classifier "As" 0
      ⟨"Arsen", 8, some 20, some 50, some 600, some 1000⟩ rfl).2.2.1 "Ukjent" rfl 3
  · exact (C1_threshold_classifier "As" 0
      ⟨"Arsen", 8, some 20, some 50, some 600, some 1000⟩ rfl).2.2.2 "Toluen" rfl 100

/-- Claim C4 (amended): the normalizer depends on its input only through the
stripped label, so its result is invariant under added leading/trailing
whitespace; the case-insensitivity asserted by the original claim fails (see
the counterexample). -/
theorem C4_normalize_trim_invariant (s t : String) (h : pyStrip s = pyStrip t) :
    normalize_parameter_name s = normalize_parameter_name t := by
  unfold normalize_parameter_name
  rw [h]

/-- Witness for C4: whitespace around a label does not change its code. -/
theorem C4_normalize_trim_invariant_witness :
    pyStrip "  arsen  " = pyStrip "arsen" ∧
    normalize_parameter_name "  arsen  " = normalize_parameter_name "arsen" :=
  ⟨rfl, C4_normalize_trim_invariant "  arsen  " "arsen" rfl⟩

/-- Counterexample to C4 as stated: `krom (vi)` is a key of the alias table,
but its case variants normalize inconsistently — the lowercase key itself has
its trailing parenthetical stripped and resolves to `Cr`, while the case
variant `Krom (VI)` hits the Eurofins column map and resolves to `Cr_VI`. -/
theorem C4_counterexample :
    (dictGet PARAMETER_ALIASES "krom (vi)").isSome = true ∧
    lowerStr "Krom (VI)" = "krom (vi)" ∧
    normalize_parameter_name "krom (vi)" = "Cr" ∧
    normalize_parameter_name "Krom (VI)" = "Cr_VI" ∧
    ("Cr" : String) ≠ "Cr_VI" :=
  ⟨rfl, rfl, rfl, rfl, by decide⟩

/-- Claim C5 (amended): the normalizer performs no footnote-marker stripping;
marker-insensitivity holds exactly for the labels whose caret variant is an
explicit key of the ALS Excel column map, such as `Krysen` and
`Benso(a)pyren`. -/
theorem C5_marker_map_keys :
    get_parameter_code "Krysen" = "Chrysene" ∧
    get_parameter_code "Krysen^" = "Chrysene" ∧
    get_parameter_code "Benso(a)pyren" = "BaP" ∧
    get_parameter_code "Benso(a)pyren^" = "BaP" :=
  ⟨rfl, rfl, rfl, rfl⟩

/-- Counterexample to C5 as stated: `Toluen` resolves to `Toluene`, but the
marked labels `Toluen^` and `Toluen*` fall through every lookup and are
returned unresolved, not as `Toluene`. -/
theorem C5_counterexample :
    normalize_parameter_name "Toluen" = "Toluene" ∧
    normalize_parameter_name "Toluen^" = "Toluen^" ∧
    normalize_parameter_name "Toluen*" = "Toluen*" ∧
    get_parameter_code "Toluen^" = "Toluen^" ∧
    ("Toluen^" : String) ≠ "Toluene" :=
  ⟨rfl, rfl, rfl, rfl, by decide⟩

/-- Claim C9: in both literal threshold tables the defined tier boundaries of
every parameter are non-decreasing in tier order (the tier-1 boundary is
present in every row by construction of the row type, mirroring the literal
data). -/
theorem C9_threshold_monotonicity :
    (∀ kv ∈ TILSTANDSKLASSER, nondecreasing (definedTiers kv.2) = true) ∧
    (∀ kv ∈ chemTILSTANDSKLASSER,
      nondecreasing [kv.2.I, kv.2.II, kv.2.III, kv.2.IV, kv.2.V] = true) := by
  constructor <;> decide

/-- Witness for C9 at the arsenic row of the `thresholds.py` table. -/
theorem C9_threshold_monotonicity_witness :
    nondecreasing
      (definedTiers ⟨"Arsen", 8, some 20, some 50, some 600, some 1000⟩) = true :=
  C9_threshold_monotonicity.1
    ("As", ⟨"Arsen", 8, some 20, some 50, some 600, some 1000⟩) (by decide)

/-- Claim C10 (implicit): the value parser deletes every embedded space before
numeric parsing, so the space-grouped numeral `1 200,5` parses to
`(1200.5, false)`, while the dot-grouped `1.200,5` fails and yields
`(none, false)`. -/
theorem C10_space_grouped_numerals :
    parse_value "1 200,5" = (some (mkRat 2401 2), false) ∧
    parse_value "1.200,5" = (none, false) ∧
    ∀ l : List Char, ' ' ∉ removeSpaces l := by
  refine ⟨by decide, by decide, ?_⟩
  intro l hmem
  have hfar := (List.mem_filter.mp hmem).2
  simp at hfar

/-- Witness for C10: space removal applied to a concrete spaced numeral leaves
no space. -/
theorem C10_space_grouped_numerals_witness :
    ' ' ∉ removeSpaces ("1 200,5".data) :=
  C10_space_grouped_numerals.2.2 ("1 200,5".data)

/-- Claim C7: a unit label absent from the conversion table (after lowercasing
and trimming) gets factor 1.0, so converting any value from an unknown unit to
the canonical unit `mg/kg` returns the value unchanged in both converters —
never an error. -/
theorem C7_unknown_unit_identity (u : String) (v : ℚ)
    (h1 : dictGet CONCENTRATION_TO_MGKG (pyStrip (lowerStr u)) = none)
    (h2 : dictGet UNIT_CONVERSIONS (pyStrip (lowerStr u)) = none) :
    conversions_convert_units (some v) u "mg/kg" = some v ∧
    chemistry_convert_units (some v) u "mg/kg" = some v := by
  constructor
  · have ht : dictGet CONCENTRATION_TO_MGKG (pyStrip (lowerStr "mg/kg")) = some 1 := rfl
    simp [conversions_convert_units, h1, ht]
  · have ht : dictGet UNIT_CONVERSIONS (pyStrip (lowerStr "mg/kg")) = some 1 := rfl
    simp [chemistry_convert_units, h2, ht]

/-- Witness for C7 at the unknown unit label `mmol/l`. -/
theorem C7_unknown_unit_identity_witness :
    conversions_convert_units (some 7) "mmol/l" "mg/kg" = some 7 ∧
    chemistry_convert_units (some 7) "mmol/l" "mg/kg" = some 7 :=
  C7_unknown_unit_identity "mmol/l" 7 rfl rfl

/-- Characterization of the fuel-driven logarithm: with fuel above the
exponent it returns the binade exponent. -/
theorem log2F_eq (k : ℕ) : ∀ fuel n : ℕ, 2 ^ k ≤ n → n < 2 ^ (k + 1) →
    k < fuel → log2F fuel n = k := by
  induction k with
  | zero =>
    intro fuel n h1 h2 hf
    obtain ⟨f, rfl⟩ : ∃ f, fuel = f + 1 := ⟨fuel - 1, by omega⟩
    simp only [log2F]
    rw [if_neg (by simp only [pow_zero, pow_one] at h1 h2; omega)]
  | succ k ih =>
    intro fuel n h1 h2 hf
    obtain ⟨f, rfl⟩ : ∃ f, fuel = f + 1 := ⟨fuel - 1, by omega⟩
    simp only [log2F]
    have h2n : (2 : ℕ) ≤ n := by
      have hp : (2 : ℕ) ^ 1 ≤ 2 ^ (k + 1) :=
        Nat.pow_le_pow_right (by norm_num) (by omega)
      simp only [pow_one] at hp
      omega
    rw [if_pos h2n]
    have hrec : log2F f (n / 2) = k := by
      apply ih f (n / 2) ?_ ?_ (by omega)
      · rw [Nat.le_div_iff_mul_le (by norm_num)]
        calc 2 ^ k * 2 = 2 ^ (k + 1) := (pow_succ 2 k).symm
          _ ≤ n := h1
      · rw [Nat.div_lt_iff_lt_mul (by norm_num)]
        calc n < 2 ^ (k + 1 + 1) := h2
          _ = 2 ^ (k + 1) * 2 := pow_succ 2 (k + 1)
    omega

/-- Bit count of a natural from its binade. -/
theorem natBits_eq {n k : ℕ} (h1 : 2 ^ k ≤ n) (h2 : n < 2 ^ (k + 1)) :
    natBits n = k + 1 := by
  have hp : (0 : ℕ) < 2 ^ k := pow_pos (by norm_num) k
  have hn : ¬ n = 0 := by omega
  have hk : k < n := lt_of_lt_of_le (Nat.lt_two_pow k) h1
  unfold natBits
  rw [if_neg hn, log2F_eq k n n h1 h2 hk]

/-- A normalized 53-bit mantissa shifted left 52 bits sits at exponent 52. -/
theorem pickExp_mul52 {m : ℕ} (hm1 : 2 ^ 52 ≤ m) (hm2 : m < 2 ^ 53)
    (hb : natBits (m * 2 ^ 52) = 105) :
    pickExp (m * 2 ^ 52) 1 = 52 := by
  have hb1 : natBits 1 = 1 := by decide
  simp only [pickExp, hb, hb1]
  norm_num
  rw [show scaleNum (m * 4503599627370496) 51 = m * 4503599627370496 from by
      simp [scaleNum],
    show scaleDen 1 51 = 2251799813685248 from by simp [scaleDen],
    show m * 4503599627370496 = 2 * m * 2251799813685248 from by ring,
    Nat.mul_div_cancel _ (by norm_num : (0:ℕ) < 2251799813685248)]
  have h52 : (2 : ℕ) ^ 52 = 4503599627370496 := by norm_num
  rw [h52] at hm1
  omega

/-- Rounding `(m · 2 ^ 52) / 2 ^ 52` recovers `m` exactly (remainder zero). -/
theorem roundAt_mul52 (m : ℕ) : roundAt (m * 2 ^ 52) 1 52 = m := by
  simp only [roundAt]
  norm_num
  rw [show scaleNum (m * 4503599627370496) 52 = m * 4503599627370496 from by
      simp [scaleNum],
    show scaleDen 1 52 = 4503599627370496 from by simp [scaleDen],
    Nat.mul_div_cancel _ (by norm_num : (0:ℕ) < 4503599627370496),
    Nat.mul_mod_left]
  norm_num

/-- Rounding the exact dyadic `(m · 2 ^ 52) · 2 ^ sh` with a normalized 53-bit
`m` is exact. -/
theorem roundFS_mul_pow52 {m : ℕ} (sh : ℤ) (hm1 : 2 ^ 52 ≤ m) (hm2 : m < 2 ^ 53)
    (hb : natBits (m * 2 ^ 52) = 105) :
    roundFS (m * 2 ^ 52) 1 sh = ⟨m, 52 + sh⟩ := by
  simp only [roundFS, pickExp_mul52 hm1 hm2 hb, roundAt_mul52]
  rw [if_neg (by
    have h53 : (2:ℕ) ^ 53 = 9007199254740992 := by norm_num
    rw [h53] at hm2 ⊢
    omega)]

/-- A normalized 53-bit mantissa divided by `2 ^ 52` sits at exponent −52. -/
theorem pickExp_div52 {m : ℕ} (hm1 : 2 ^ 52 ≤ m) (hm2 : m < 2 ^ 53)
    (hbm : natBits m = 53) :
    pickExp m (2 ^ 52) = -52 := by
  have hb2 : natBits (2 ^ 52) = 53 := by decide
  simp only [pickExp, hbm, hb2]
  norm_num
  rw [show scaleNum m (-53) = m * 9007199254740992 from by simp [scaleNum],
    show scaleDen 4503599627370496 (-53) = 4503599627370496 from by simp [scaleDen],
    show m * 9007199254740992 = 2 * m * 4503599627370496 from by ring,
    Nat.mul_div_cancel _ (by norm_num : (0:ℕ) < 4503599627370496)]
  have h52 : (2 : ℕ) ^ 52 = 4503599627370496 := by norm_num
  rw [h52] at hm1
  omega

/-- Rounding `(m / 2 ^ 52) · 2 ^ 52` recovers `m` exactly (remainder zero). -/
theorem roundAt_div52 (m : ℕ) : roundAt m (2 ^ 52) (-52) = m := by
  simp only [roundAt]
  norm_num
  rw [show scaleNum m (-52) = m * 4503599627370496 from by simp [scaleNum],
    show scaleDen 4503599627370496 (-52) = 4503599627370496 from by simp [scaleDen],
    Nat.mul_div_cancel _ (by norm_num : (0:ℕ) < 4503599627370496),
    Nat.mul_mod_left]
  norm_num

/-- Rounding the exact quotient `(m / 2 ^ 52) · 2 ^ sh` with a normalized
53-bit `m` is exact. -/
theorem roundFS_div_pow52 {m : ℕ} (sh : ℤ) (hm1 : 2 ^ 52 ≤ m) (hm2 : m < 2 ^ 53)
    (hbm : natBits m = 53) :
    roundFS m (2 ^ 52) sh = ⟨m, -52 + sh⟩ := by
  simp only [roundFS, pickExp_div52 hm1 hm2 hbm, roundAt_div52]
  rw [if_neg (by
    have h53 : (2:ℕ) ^ 53 = 9007199254740992 := by norm_num
    rw [h53] at hm2 ⊢
    omega)]

/-- Multiplying a normalized positive finite double by the double 1.0 is
exact: no rounding occurs. -/
theorem fmul_oneF {m : ℕ} {e : ℤ} (hm1 : 2 ^ 52 ≤ m) (hm2 : m < 2 ^ 53) :
    fmul ⟨m, e⟩ (f64ofDec 1 1) = ⟨m, e⟩ := by
  have h1 : f64ofDec 1 1 = ⟨2 ^ 52, -52⟩ := by decide
  have hb : natBits (m * 2 ^ 52) = 105 := by
    apply natBits_eq (k := 104)
    · calc (2 : ℕ) ^ 104 = 2 ^ 52 * 2 ^ 52 := by norm_num
        _ ≤ m * 2 ^ 52 := Nat.mul_le_mul_right _ hm1
    · calc m * 2 ^ 52 < 2 ^ 53 * 2 ^ 52 :=
          (Nat.mul_lt_mul_right (pow_pos (by norm_num) 52)).mpr hm2
        _ = 2 ^ (104 + 1) := by norm_num
  rw [h1]
  show roundFS (m * 2 ^ 52) 1 (e + -52) = ⟨m, e⟩
  rw [roundFS_mul_pow52 (e + -52) hm1 hm2 hb]
  simp only [F64.mk.injEq]
  exact ⟨trivial, by omega⟩

/-- Dividing a normalized positive finite double by the double 1.0 is exact:
no rounding occurs. -/
theorem fdiv_oneF {m : ℕ} {e : ℤ} (hm1 : 2 ^ 52 ≤ m) (hm2 : m < 2 ^ 53) :
    fdiv ⟨m, e⟩ (f64ofDec 1 1) = ⟨m, e⟩ := by
  have h1 : f64ofDec 1 1 = ⟨2 ^ 52, -52⟩ := by decide
  have hbm : natBits m = 53 := natBits_eq (k := 52) hm1 hm2
  rw [h1]
  show roundFS m (2 ^ 52) (e - -52) = ⟨m, e⟩
  rw [roundFS_div_pow52 (e - -52) hm1 hm2 hbm]
  simp only [F64.mk.injEq]
  exact ⟨trivial, by omega⟩

/-- Claim C8 (amended): for every known unit the converter computes
`value * factor / factor`, an identity in exact (real-number) arithmetic —
the first two conjuncts state this over the exact rational model; in the IEEE
binary64 arithmetic the Python program actually performs, the round trip is
the identity for every unit whose stored factor is the double 1.0
(multiplication and division by 1.0 are exact), stated by the last two
conjuncts over the binary64 model — but not for every known unit and value:
see the counterexample at `µg/kg`. -/
theorem C8_known_unit_roundtrip (u : String) (v : ℚ) (m : ℕ) (e : ℤ)
    (hm1 : 2 ^ 52 ≤ m) (hm2 : m < 2 ^ 53) :
    (∀ f : ℚ, dictGet CONCENTRATION_TO_MGKG (pyStrip (lowerStr u)) = some f →
      conversions_convert_units (some v) u u = some v) ∧
    (∀ f : ℚ, dictGet UNIT_CONVERSIONS (pyStrip (lowerStr u)) = some f →
      chemistry_convert_units (some v) u u = some v) ∧
    (dictGet CONCENTRATION_TO_MGKG_F (pyStrip (lowerStr u)) = some (f64ofDec 1 1) →
      conversions_convert_units_f64 ⟨m, e⟩ u u = ⟨m, e⟩) ∧
    (dictGet UNIT_CONVERSIONS_F (pyStrip (lowerStr u)) = some (f64ofDec 1 1) →
      chemistry_convert_units_f64 ⟨m, e⟩ u u = ⟨m, e⟩) := by
  refine ⟨?_, ?_, ?_, ?_⟩
  · intro f hf
    have hne : f ≠ 0 := by
      obtain ⟨pr, hpr, hval⟩ := dictGet_mem hf
      exact hval ▸ CONC_factors_nonzero pr hpr
    simp only [conversions_convert_units, hf, Option.getD_some, Option.some.injEq]
    rw [mul_div_assoc, div_self hne, mul_one]
  · intro f hf
    have hne : f ≠ 0 := by
      obtain ⟨pr, hpr, hval⟩ := dictGet_mem hf
      exact hval ▸ UNIT_factors_nonzero pr hpr
    simp only [chemistry_convert_units, hf, Option.getD_some, Option.some.injEq]
    rw [mul_div_assoc, div_self hne, mul_one]
  · intro hf
    simp only [conversions_convert_units_f64, hf, Option.getD_some]
    rw [fmul_oneF hm1 hm2, fdiv_oneF hm1 hm2]
  · intro hf
    simp only [chemistry_convert_units_f64, hf, Option.getD_some]
    rw [fmul_oneF hm1 hm2, fdiv_oneF hm1 hm2]

/-- Witness for C8 at the factor-1.0 unit `mg/kg`, with the exact value 0.123
and the binary64 value of 0.123 (mantissa 8863084066665136, exponent −56). -/
theorem C8_known_unit_roundtrip_witness :
    conversions_convert_units (some (mkRat 123 1000)) "mg/kg" "mg/kg" =
      some (mkRat 123 1000) ∧
    chemistry_convert_units (some (mkRat 123 1000)) "mg/kg" "mg/kg" =
      some (mkRat 123 1000) ∧
    conversions_convert_units_f64 ⟨8863084066665136, -56⟩ "mg/kg" "mg/kg" =
      ⟨8863084066665136, -56⟩ ∧
    chemistry_convert_units_f64 ⟨8863084066665136, -56⟩ "mg/kg" "mg/kg" =
      ⟨8863084066665136, -56⟩ := by
  have h := C8_known_unit_roundtrip "mg/kg" (mkRat 123 1000) 8863084066665136
    (-56) (by norm_num) (by norm_num)
  exact ⟨h.1 1 rfl, h.2.1 1 rfl, h.2.2.1 rfl, h.2.2.2 rfl⟩

set_option maxRecDepth 4000 in
/-- Counterexample to C8 as stated: in the binary64 arithmetic the program
performs, converting the double 0.123 from `µg/kg` to `µg/kg` multiplies and
then divides by the double 0.001, rounding after each operation, and both
converters return the neighbouring double 0.12300000000000001 (mantissa one
unit higher), not 0.123: the same-unit round trip is not the identity for
every known unit and value. -/
theorem C8_counterexample :
    f64ofDec 123 1000 = ⟨8863084066665136, -56⟩ ∧
    conversions_convert_units_f64 (f64ofDec 123 1000) "µg/kg" "µg/kg" =
      ⟨8863084066665137, -56⟩ ∧
    chemistry_convert_units_f64 (f64ofDec 123 1000) "µg/kg" "µg/kg" =
      ⟨8863084066665137, -56⟩ ∧
    conversions_convert_units_f64 (f64ofDec 123 1000) "µg/kg" "µg/kg" ≠
      f64ofDec 123 1000 :=
  ⟨by decide, by decide, by decide, by decide⟩

/-- A below-limit value string `<`‑limit produces a record whose value and loq
both equal the parsed limit, with the flag set (shared between the C2 and C6
theorems). -/
theorem buildAls_lt (sid pc pr unit atype : String) (us : Option String)
    (d : String) (q : ℚ) (hq : pyFloat d = some q) :
    (buildAlsResult sid pc pr ("<" ++ d) unit us atype).map
      (fun r => (r.value, r.below_limit, r.loq)) = some (some q, true, some q) := by
  have hpre : ['<'].isPrefixOf ("<" ++ d).data = true := by
    simp [show ("<" ++ d).data = '<' :: d.data from rfl, List.isPrefixOf]
  have hdrop : (⟨("<" ++ d).data.drop 1⟩ : String) = d := rfl
  simp only [buildAlsResult, hpre, if_true, hdrop, hq]
  rfl

/-- Claim C2 (amended): in a Result record with the below-limit flag set, the
value equals the reported limit and the loq is present whenever the raw value
began with `<` and its remainder parses; for the not-detected tokens the flag
is also set but the value is the hard zero 0.0 and the loq is absent (the
original claim fails there, see the counterexample). -/
theorem C2_below_limit_invariant (sid pc pr unit atype : String)
    (us : Option String) (d : String) (q : ℚ) (hq : pyFloat d = some q) :
    ((buildAlsResult sid pc pr ("<" ++ d) unit us atype).map
      (fun r => (r.value, r.below_limit, r.loq)) = some (some q, true, some q)) ∧
    ((buildAlsResult sid pc pr "n.d." unit us atype).map
      (fun r => (r.value, r.below_limit, r.loq)) = some (some 0, true, none)) :=
  ⟨buildAls_lt sid pc pr unit atype us d q hq, rfl⟩

/-- Witness for C2 at the value strings `<0.5` and `n.d.`. -/
theorem C2_below_limit_invariant_witness :
    ((buildAlsResult "S1" "Pb" "Bly" "<0.5" "mg/kg" none "totalanalyse").map
      (fun r => (r.value, r.below_limit, r.loq)) =
        some (some (mkRat 1 2), true, some (mkRat 1 2))) ∧
    ((buildAlsResult "S1" "Pb" "Bly" "n.d." "mg/kg" none "totalanalyse").map
      (fun r => (r.value, r.below_limit, r.loq)) = some (some 0, true, none)) :=
  C2_below_limit_invariant "S1" "Pb" "Bly" "mg/kg" "totalanalyse" none "0.5"
    (mkRat 1 2) (by decide)

/-- Counterexample to C2 as stated: the not-detected token `n.d.` yields a
record with the below-limit flag set whose loq field is absent (and whose
value 0.0 is not a reported detection limit), violating the claimed invariant
that the flag implies a present loq equal to the value. -/
theorem C2_counterexample :
    (buildAlsResult "S1" "CN" "Cyanid-fri" "n.d." "mg/kg" none "totalanalyse").map
      (fun r => (r.value, r.below_limit, r.loq)) = some (some 0, true, none) := rfl

/-- Claim C6: a raw value string that is `<` (or the HTML escape `&lt;`)
followed by a numeral parses to the numeral with the below-limit flag set (the
character class `[<&lt;]` of the source consumes the whole escape including
its semicolon), and the ALS record builder stores that limit as both value and
loq. -/
theorem C6_below_limit_marker (d : String) (q : ℚ)
    (hchars : ∀ c ∈ d.data, c ∈ numeralChars) (hq : pyFloat d = some q) :
    parse_value ("<" ++ d) = (some q, true) ∧
    parse_value ("&lt;" ++ d) = (some q, true) ∧
    ((buildAlsResult "S" "P" "P" ("<" ++ d) "mg/kg" none "totalanalyse").map
      (fun r => (r.value, r.below_limit, r.loq)) = some (some q, true, some q)) := by
  have hlow : d.data.map lowerChar = d.data := mapLower_eq_self hchars
  have hnd : ndTokens.contains (⟨d.data⟩ : String) = false :=
    ndTokens_contains_false hchars
  have hclean : cleanNumeric d.data = d.data := cleanNumeric_eq_self hchars
  have hfd : pyFloat (⟨d.data⟩ : String) = some q := hq
  refine ⟨?_, ?_, buildAls_lt "S" "P" "P" "mg/kg" "totalanalyse" none d q hq⟩
  · have hnws : ∀ c ∈ ('<' :: d.data), isPyWS c = false := by
      intro c hc
      rcases List.mem_cons.mp hc with rfl | hc2
      · rfl
      · exact (numeralChars_props c (hchars c hc2)).1
    have hvs : stripL ("<" ++ d).data = '<' :: d.data := stripL_eq_self hnws
    have hang : stripAngle ('<' :: d.data) = d.data := stripAngle_lt hchars
    have hb : (['<'].isPrefixOf ('<' :: d.data) ||
        ['&', 'l', 't', ';'].isPrefixOf ('<' :: d.data)) = true := by
      simp [List.isPrefixOf]
    simp only [parse_value, hvs, hb, if_true, hang, hlow, hnd, hclean, hfd]
    rfl
  · have hnws : ∀ c ∈ ('&' :: 'l' :: 't' :: ';' :: d.data), isPyWS c = false := by
      intro c hc
      simp only [List.mem_cons] at hc
      rcases hc with rfl | rfl | rfl | rfl | hc2
      · rfl
      · rfl
      · rfl
      · rfl
      · exact (numeralChars_props c (hchars c hc2)).1
    have hvs : stripL ("&lt;" ++ d).data = '&' :: 'l' :: 't' :: ';' :: d.data :=
      stripL_eq_self hnws
    have hang : stripAngle ('&' :: 'l' :: 't' :: ';' :: d.data) = d.data :=
      stripAngle_ampLt hchars
    have hb : (['<'].isPrefixOf ('&' :: 'l' :: 't' :: ';' :: d.data) ||
        ['&', 'l', 't', ';'].isPrefixOf ('&' :: 'l' :: 't' :: ';' :: d.data)) = true := by
      simp [List.isPrefixOf]
    simp only [parse_value, hvs, hb, if_true, hang, hlow, hnd, hclean, hfd]
    rfl

/-- Witness for C6 at the limit numeral 0.5. -/
theorem C6_below_limit_marker_witness :
    parse_value "<0.5" = (some (mkRat 1 2), true) ∧
    parse_value "&lt;0.5" = (some (mkRat 1 2), true) ∧
    ((buildAlsResult "S" "P" "P" "<0.5" "mg/kg" none "totalanalyse").map
      (fun r => (r.value, r.below_limit, r.loq)) =
        some (some (mkRat 1 2), true, some (mkRat 1 2))) :=
  C6_below_limit_marker "0.5" (mkRat 1 2) (by decide) (by decide)

/-- Claim C3: the sample aggregator returns the maximum defined tier with floor
1 (Undetermined entries never move the running maximum), a limiting list that
is empty when the overall tier is 1 and otherwise contains exactly the
parameters whose tier equals the overall tier (all tied parameters, not just
one); `get_sample_tilstandsklasse` is this aggregation of the per-parameter
classifications. -/
theorem C3_sample_aggregator (l : List (String × Option ℕ)) :
    (aggregateTiers l).1 = (l.filterMap Prod.snd).foldl max 1 ∧
    ((aggregateTiers l).1 = 1 → (aggregateTiers l).2 = []) ∧
    (1 < (aggregateTiers l).1 →
      ∀ p : String, p ∈ (aggregateTiers l).2 ↔ (p, some (aggregateTiers l).1) ∈ l) ∧
    (∀ results : List (String × ℚ),
      get_sample_tilstandsklasse results =
        aggregateTiers (results.map (fun pv => (pv.1, get_tilstandsklasse pv.1 pv.2)))) := by
  refine ⟨aggFold_fst l 1 [], ?_, ?_, fun results => rfl⟩
  · intro h1
    apply List.eq_nil_iff_forall_not_mem.mpr
    intro p hp
    have hm := (aggFold_mem l 1 [] (le_refl 1) p).mp hp
    simp only [aggregateTiers] at h1
    rcases hm with ⟨hgt, _⟩ | ⟨_, hp2⟩
    · omega
    · exact List.not_mem_nil p hp2
  · intro h1 p
    have hm := aggFold_mem l 1 [] (le_refl 1) p
    simp only [aggregateTiers] at h1 ⊢
    rw [hm]
    constructor
    · rintro (⟨_, h⟩ | ⟨hW, _⟩)
      · exact h
      · omega
    · intro h
      exact Or.inl ⟨h1, h⟩

/-- Witness for C3 at the spec example: As tier 4, Cu tier 3, Hg Undetermined
aggregate to overall tier 4 with As the (only) limiting parameter. -/
theorem C3_sample_aggregator_witness :
    (aggregateTiers [("As", some 4), ("Cu", some 3), ("Hg", none)]).1 = 4 ∧
    ("As" ∈ (aggregateTiers [("As", some 4), ("Cu", some 3), ("Hg", none)]).2 ↔
      ("As", some (aggregateTiers [("As", some 4), ("Cu", some 3), ("Hg", none)]).1) ∈
        [("As", some 4), ("Cu", some 3), ("Hg", none)]) :=
  ⟨by decide,
    (C3_sample_aggregator [("As", some 4), ("Cu", some 3), ("Hg", none)]).2.2.1
      (by decide) "As"⟩

end Bunnrensk
